import Mathlib

/-!
Verification of the XBee-WiFi API codec (`xbee/wifi.py`).

The repository source under `src/` contains the schema registry of the
`XBeeWifi` class: `api_commands` (outbound command frames) and
`api_responses` (inbound response frames).  The generic encoder, decoder
and envelope framer live in the base class `XBeeBase` (`xbee/base.py`),
which is not part of the given sources; those operations are modelled
from the specification and marked as such.

Bytes are modelled as natural numbers below 256 inside `List Nat`;
field values are byte lists.  Python `bytes` literals such as `b'\x08'`
become `[0x08]`, and the `None` length sentinel ("consumes the
remainder") becomes `Option.none`.
-/

namespace XBeeWifi

/-- One field descriptor of a command schema, embedding the dictionaries
`{'name':…, 'len':…, 'default':…}` of `XBeeWifi.api_commands`.
`len = none` is the variable-length sentinel (Python `'len':None`);
`default = none` is the absent default (Python `'default':None`). -/
structure FieldSpec where
  name : String
  len : Option Nat
  default : Option (List Nat)
  deriving DecidableEq, Repr

/-- A response-field postprocessor, as documented in the source format
comment: a function that receives the partially-parsed mapping of field
names to bytes and returns replacement bytes for its field.  (The xbee
object argument carries no data used by any postprocessor and is
dropped from the model.) -/
def PostProc : Type := List (String × List Nat) → List Nat

/-- One entry of `XBeeWifi.api_responses`: the response name, its
ordered field structure, and the `parsing` postprocessor list.  The
source registers no `parsing` key on any response, so every `parsing`
list below is empty. -/
structure ResponseSpec where
  name : String
  structure' : List FieldSpec
  parsing : List (String × PostProc)

/-- Table `XBeeWifi.api_commands`, transcribed from `src/xbee/wifi.py`
lines 30-65.  Order and contents follow the source dictionary. -/
def api_commands : List (String × List FieldSpec) :=
  [("at",
      [⟨"id",        some 1, some [0x08]⟩,
       ⟨"frame_id",  some 1, some [0x00]⟩,
       ⟨"command",   some 2, none⟩,
       ⟨"parameter", none,   none⟩]),
   ("queued_at",
      [⟨"id",        some 1, some [0x09]⟩,
       ⟨"frame_id",  some 1, some [0x00]⟩,
       ⟨"command",   some 2, none⟩,
       ⟨"parameter", none,   none⟩]),
   ("remote_at",
      [⟨"id",        some 1, some [0x07]⟩,
       ⟨"frame_id",  some 1, some [0x00]⟩,
       ⟨"dest_addr", some 8, none⟩,
       ⟨"options",   some 1, some [0x02]⟩,
       ⟨"command",   some 2, none⟩,
       ⟨"parameter", none,   none⟩]),
   ("tx",
      [⟨"id",          some 1, some [0x20]⟩,
       ⟨"frame_id",    some 1, some [0x01]⟩,
       ⟨"dest_addr",   some 4, none⟩,
       ⟨"dest_port",   some 2, none⟩,
       ⟨"source_port", some 2, none⟩,
       ⟨"protocol",    some 1, some [0x00]⟩,
       ⟨"options",     some 1, some [0x00]⟩,
       ⟨"data",        none,   none⟩]),
   ("tx_long_addr",
      [⟨"id",        some 1, some [0x00]⟩,
       ⟨"frame_id",  some 1, some [0x00]⟩,
       ⟨"dest_addr", some 8, none⟩,
       ⟨"options",   some 1, some [0x00]⟩,
       ⟨"data",      none,   none⟩])]

/-- Table `XBeeWifi.api_responses`, transcribed from `src/xbee/wifi.py`
lines 85-137.  The dictionary keys are one-character strings
(`"\x80"` …) holding the response type byte; the model keys by that
byte value.  Response fields carry no defaults, so `default := none`
throughout.  No entry of the source dictionary has a `parsing` key,
hence every `parsing` list is `[]`. -/
def api_responses : List (Nat × ResponseSpec) :=
  [(0x80, ⟨"rx",
      [⟨"frame_id",    some 1, none⟩,
       ⟨"source_addr", some 8, none⟩,
       ⟨"RSSI",        some 2, none⟩,
       ⟨"options",     some 1, none⟩,
       ⟨"rf_data",     none,   none⟩], []⟩),
   (0x88, ⟨"at_response",
      [⟨"frame_id",  some 1, none⟩,
       ⟨"command",   some 2, none⟩,
       ⟨"status",    some 1, none⟩,
       ⟨"parameter", none,   none⟩], []⟩),
   (0x8A, ⟨"status",
      [⟨"status", some 1, none⟩], []⟩),
   (0x89, ⟨"tx_status",
      [⟨"frame_id", some 1, none⟩,
       ⟨"status",   some 1, none⟩], []⟩),
   (0x8F, ⟨"rx_io",
      [⟨"source_addr",     some 8, none⟩,
       ⟨"RSSI",            some 1, none⟩,
       ⟨"options",         some 1, none⟩,
       ⟨"num_samples",     some 1, none⟩,
       ⟨"digital_mask",    some 2, none⟩,
       ⟨"analog_mask",     some 1, none⟩,
       ⟨"digital_samples", some 2, none⟩,
       ⟨"analog_sample",   some 2, none⟩], []⟩),
   (0x87, ⟨"remote_at_response",
      [⟨"frame_id",    some 1, none⟩,
       ⟨"source_addr", some 8, none⟩,
       ⟨"command",     some 2, none⟩,
       ⟨"status",      some 1, none⟩,
       ⟨"parameter",   none,   none⟩], []⟩),
   (0xB0, ⟨"rx",
      [⟨"source_addr", some 4, none⟩,
       ⟨"dest_port",   some 2, none⟩,
       ⟨"source_port", some 2, none⟩,
       ⟨"protocol",    some 1, none⟩,
       ⟨"status",      some 1, none⟩,
       ⟨"rf_data",     none,   none⟩], []⟩)]

/-- Look up a command's field list by name. -/
def lookupCommand (cmd : String) : Option (List FieldSpec) :=
  (api_commands.find? (fun p => p.1 == cmd)).map (·.2)

/-- Look up a response spec by its type byte. -/
def lookupResponse (t : Nat) : Option ResponseSpec :=
  (api_responses.find? (fun p => p.1 == t)).map (·.2)

end XBeeWifi

namespace XBeeWifi

/-- Holds when every field of the list except possibly the last has a
fixed length: equivalently, at most one field is variable-length and a
variable-length field can only sit in last position. -/
def varLenLastOnly (fs : List FieldSpec) : Bool :=
  fs.dropLast.all (fun f => f.len.isSome)

/-- Errors of the encode path (spec §7 taxonomy, encode side). -/
inductive EncodeError where
  | UnknownCommand (cmd : String)
  | MissingRequiredField (field : String)
  | FieldLengthMismatch (field : String) (expected actual : Nat)
  deriving DecidableEq, Repr

/-- Caller-supplied field values: a name-to-bytes association list. -/
def FieldValues : Type := List (String × List Nat)

/-- First value supplied for a field name, if any. -/
def lookupField (v : FieldValues) (n : String) : Option (List Nat) :=
  (v.find? (fun p => p.1 == n)).map (·.2)

/-- The bytes a field contributes before the length check: the
caller-supplied value when present, otherwise the schema default when
present, otherwise nothing (spec §4.2, first three bullets). -/
def effVal (f : FieldSpec) (v : FieldValues) : Option (List Nat) :=
  match lookupField v f.name with
  | some x => some x
  | none => f.default

/-- Modelled from the spec: the field-serialization loop of the generic
encoder (`XBeeBase._build_command`, absent from `src/`), spec §4.2.
For each field in schema order take the supplied value, else the
default, else fail `MissingRequiredField`; a fixed-length field's value
must have exactly the schema length (`FieldLengthMismatch` otherwise);
a variable-length field's bytes are appended as-is.  Field byte strings
are concatenated in schema order; an error produces no output bytes. -/
def encodeFields : List FieldSpec → FieldValues → Except EncodeError (List Nat)
  | [], _ => .ok []
  | f :: fs, v =>
    match effVal f v with
    | none => .error (.MissingRequiredField f.name)
    | some val =>
      match f.len with
      | some n =>
        if val.length = n then
          (encodeFields fs v).map (fun rest => val ++ rest)
        else
          .error (.FieldLengthMismatch f.name n val.length)
      | none => (encodeFields fs v).map (fun rest => val ++ rest)

/-- Modelled from the spec: `encode(command_name, field_values)`
(spec §4.2) — look the command up in `api_commands` (from `src/`) and
serialize its fields. -/
def encode (cmd : String) (v : FieldValues) : Except EncodeError (List Nat) :=
  match lookupCommand cmd with
  | some fs => encodeFields fs v
  | none => .error (.UnknownCommand cmd)

/-- Modelled from the spec: the envelope checksum (spec §4.3 and §6):
`0xFF` minus the low 8 bits of the sum of all payload bytes. -/
def checksum (payload : List Nat) : Nat :=
  0xFF - payload.sum % 256

/-- Errors of the decode path (spec §7 taxonomy, decode side; envelope
errors belong to the framer and are out of the payload decoder). -/
inductive DecodeError where
  | TruncatedFrame
  deriving DecidableEq, Repr

/-- A decoded frame: the raw type byte, the response name tag, and the
ordered field-name-to-bytes mapping (spec §3, `Frame`). -/
structure Frame where
  type_id : Nat
  name : String
  fields : List (String × List Nat)
  deriving DecidableEq, Repr

/-- Modelled from the spec: the field-splitting loop of the generic
decoder (`XBeeBase._split_response`, absent from `src/`), spec §4.4.
A fixed-length field slices exactly its schema length from the front
(`TruncatedFrame` when fewer bytes remain); a variable-length field
consumes all remaining bytes, possibly none. -/
def splitFields : List FieldSpec → List Nat → Except DecodeError (List (String × List Nat))
  | [], _ => .ok []
  | f :: fs, data =>
    match f.len with
    | some n =>
      if n ≤ data.length then
        (splitFields fs (data.drop n)).map (fun rest => (f.name, data.take n) :: rest)
      else
        .error .TruncatedFrame
    | none => (splitFields fs []).map (fun rest => (f.name, data) :: rest)

/-- Replace the bytes stored under one field name. -/
def setField (flds : List (String × List Nat)) (n : String) (x : List Nat) :
    List (String × List Nat) :=
  flds.map (fun p => if p.1 == n then (p.1, x) else p)

/-- Modelled from the spec: run each registered postprocessor on the
partially-built field mapping and store its replacement bytes
(spec §4.4, postprocessing step). -/
def applyParsing (ps : List (String × PostProc)) (flds : List (String × List Nat)) :
    List (String × List Nat) :=
  ps.foldl (fun acc p => setField acc p.1 (p.2 acc)) flds

/-- Modelled from the spec: `decode(payload)` (spec §4.4) — read the
leading type byte, look it up in `api_responses` (from `src/`); an
unregistered type byte is not a failure: the frame comes back tagged
`unrecognized` with the raw type byte and the remaining bytes intact.
A registered type has its remaining bytes split by the schema and its
postprocessors applied. -/
def decode (payload : List Nat) : Except DecodeError Frame :=
  match payload with
  | [] => .error .TruncatedFrame
  | t :: rest =>
    match lookupResponse t with
    | none => .ok ⟨t, "unrecognized", [("raw_data", rest)]⟩
    | some rs =>
      (splitFields rs.structure' rest).map
        (fun flds => ⟨t, rs.name, applyParsing rs.parsing flds⟩)

/-- A field passes the encoder's per-field checks under the supplied
values: it resolves to some bytes (supplied or default) and, when its
length is fixed, those bytes have exactly that length. -/
def fieldOk (f : FieldSpec) (v : FieldValues) : Prop :=
  ∃ x, effVal f v = some x ∧ ∀ n, f.len = some n → x.length = n

end XBeeWifi

open XBeeWifi

/-- C4: In every command schema and every response schema of the
registry, at most one field is variable-length (`len = none`), and when
such a field is present it is the last field of the list. -/
theorem c4_var_len_field_last :
    (∀ p ∈ api_commands,
       ((p.2.filter (fun f => f.len = none)).length ≤ 1 ∧
        varLenLastOnly p.2 = true)) ∧
    (∀ p ∈ api_responses,
       ((p.2.structure'.filter (fun f => f.len = none)).length ≤ 1 ∧
        varLenLastOnly p.2.structure' = true)) := by
  constructor
  · decide
  · intro p hp
    fin_cases hp <;> exact ⟨by decide, by decide⟩

/-- C5: In every command schema the first field is named `id`, has
fixed length 1 and carries a default value, and these first-field
defaults are pairwise distinct across the registry. -/
theorem c5_frame_type_id_unique :
    (∀ p ∈ api_commands, ∃ f rest, p.2 = f :: rest ∧
       f.name = "id" ∧ f.len = some 1 ∧ f.default.isSome) ∧
    (api_commands.map (fun p => p.2.head?.bind (·.default))).Nodup := by
  constructor
  · intro p hp
    fin_cases hp <;> exact ⟨_, _, rfl, rfl, rfl, rfl⟩
  · decide

/-- C2 counterexample: the fixed fields of `tx` are
id(1) + frame_id(1) + dest_addr(4) + dest_port(2) + source_port(2) +
protocol(1) + options(1) = 12 bytes, so encoding `tx` with a 0-byte
data field yields a 12-byte payload, not the 11 bytes the claim
states. -/
theorem c2_tx_payload_length_counterexample :
    encode "tx"
        [("dest_addr", [192, 168, 0, 100]), ("dest_port", [0x26, 0x16]),
         ("source_port", [0x26, 0x16]), ("data", [])]
      = .ok [0x20, 0x01, 192, 168, 0, 100, 0x26, 0x16, 0x26, 0x16, 0x00, 0x00] ∧
    [0x20, 0x01, 192, 168, 0, 100, 0x26, 0x16, 0x26, 0x16,
        (0x00 : Nat), 0x00].length = 12 ∧
    ¬ ([0x20, 0x01, 192, 168, 0, 100, 0x26, 0x16, 0x26, 0x16,
        (0x00 : Nat), 0x00].length = 11) :=
  ⟨rfl, by decide, by decide⟩

/-- C2 amended: encoding the `tx` command with a 0-byte data field
produces a payload of exactly 12 bytes (1+1+4+2+2+1+1), and with an
N-byte data field a payload of exactly 12+N bytes, for every N ≥ 0. -/
theorem c2_tx_payload_length (a p s data : List Nat)
    (ha : a.length = 4) (hp : p.length = 2) (hs : s.length = 2) :
    encode "tx"
        [("dest_addr", a), ("dest_port", p), ("source_port", s), ("data", data)]
      = .ok ([0x20, 0x01] ++ a ++ p ++ s ++ [0x00, 0x00] ++ data) ∧
    ([0x20, 0x01] ++ a ++ p ++ s ++ [0x00, 0x00] ++ data).length
      = 12 + data.length := by
  constructor
  · simp [encode, lookupCommand, api_commands, encodeFields, effVal, lookupField,
      List.find?, Except.map, ha, hp, hs]
  · simp [ha, hp, hs]
    omega

/-- Witness for C2 (amended) at destination address 192.168.0.100,
ports 0x2616, and an empty data field: the payload is exactly
12 bytes. -/
theorem c2_tx_payload_length_witness :
    encode "tx"
        [("dest_addr", [192, 168, 0, 100]), ("dest_port", [0x26, 0x16]),
         ("source_port", [0x26, 0x16]), ("data", [])]
      = .ok ([0x20, 0x01] ++ [192, 168, 0, 100] ++ [0x26, 0x16] ++ [0x26, 0x16]
              ++ [0x00, 0x00] ++ []) ∧
    ([0x20, 0x01] ++ [192, 168, 0, 100] ++ [0x26, 0x16] ++ [0x26, 0x16]
        ++ [0x00, 0x00] ++ ([] : List Nat)).length = 12 + ([] : List Nat).length :=
  c2_tx_payload_length [192, 168, 0, 100] [0x26, 0x16] [0x26, 0x16] [] rfl rfl rfl

/-- C3 counterexample: for the `at` payload `[0x08, 0x00, 0x4E, 0x4A]`
the byte sum is 0x08+0x00+0x4E+0x4A = 0xA0, not the 0x9A the claim
computes, so the checksum byte is 0xFF-0xA0 = 0x5F, not 0x65. -/
theorem c3_checksum_example_counterexample :
    [0x08, 0x00, 0x4E, 0x4A].sum % 256 = 0xA0 ∧
    ¬ ([0x08, 0x00, 0x4E, 0x4A].sum % 256 = 0x9A) ∧
    checksum [0x08, 0x00, 0x4E, 0x4A] = 0x5F ∧
    ¬ (checksum [0x08, 0x00, 0x4E, 0x4A] = 0x65) := by
  refine ⟨by decide, by decide, by decide, by decide⟩

/-- C3 amended: the envelope checksum of any payload is `0xFF` minus
the low 8 bits of the payload byte sum; for the `at` command payload
`[0x08, 0x00, 0x4E, 0x4A]` (reading command "NJ") the byte sum modulo
256 is 0xA0 and the checksum byte is 0x5F. -/
theorem c3_checksum_rule_and_example :
    (∀ payload : List Nat, checksum payload = 0xFF - payload.sum % 256) ∧
    encode "at" [("command", [0x4E, 0x4A]), ("parameter", [])]
      = .ok [0x08, 0x00, 0x4E, 0x4A] ∧
    [0x08, 0x00, 0x4E, 0x4A].sum % 256 = 0xA0 ∧
    checksum [0x08, 0x00, 0x4E, 0x4A] = 0x5F :=
  ⟨fun _ => rfl, rfl, by decide, by decide⟩

/-- C1 counterexample: no response entry registers a postprocessor
(every `parsing` list of `api_responses` is empty), so decoding an
`rx` (0x80) frame whose `source_addr` field holds
`00 00 00 00 C0 A8 00 64` returns those raw 8 bytes unchanged — not
the 4 low-order bytes `C0 A8 00 64` the claim promises. -/
theorem c1_address_postprocessor_counterexample :
    (api_responses.map (fun p => p.2.parsing.length) = [0, 0, 0, 0, 0, 0, 0]) ∧
    decode
        ([0x80, 0x01] ++ [0x00, 0x00, 0x00, 0x00, 0xC0, 0xA8, 0x00, 0x64]
          ++ [0x28, 0x00, 0x00])
      = .ok ⟨0x80, "rx",
          [("frame_id", [0x01]),
           ("source_addr", [0x00, 0x00, 0x00, 0x00, 0xC0, 0xA8, 0x00, 0x64]),
           ("RSSI", [0x28, 0x00]),
           ("options", [0x00]),
           ("rf_data", [])]⟩ ∧
    ¬ ([0x00, 0x00, 0x00, 0x00, 0xC0, 0xA8, 0x00, 0x64]
        = [(0xC0 : Nat), 0xA8, 0x00, 0x64]) :=
  ⟨rfl, rfl, by decide⟩

/-- C1 amended: the registry registers no postprocessor at all, so a
decoded 8-byte address field keeps its raw 8 bytes; the usable 4
low-order bytes `C0 A8 00 64` are the last 4 bytes of the stored field
value (obtained by dropping the 4 zero high-order bytes), not the
field value the decoder returns. -/
theorem c1_address_bytes_raw :
    (api_responses.all (fun p => p.2.parsing.isEmpty) = true) ∧
    decode
        ([0x80, 0x01] ++ [0x00, 0x00, 0x00, 0x00, 0xC0, 0xA8, 0x00, 0x64]
          ++ [0x28, 0x00, 0x00])
      = .ok ⟨0x80, "rx",
          [("frame_id", [0x01]),
           ("source_addr", [0x00, 0x00, 0x00, 0x00, 0xC0, 0xA8, 0x00, 0x64]),
           ("RSSI", [0x28, 0x00]),
           ("options", [0x00]),
           ("rf_data", [])]⟩ ∧
    ([0x00, 0x00, 0x00, 0x00, 0xC0, 0xA8, 0x00, 0x64].drop 4
      = [(0xC0 : Nat), 0xA8, 0x00, 0x64]) :=
  ⟨rfl, rfl, by decide⟩

/-- C6: Decoding a payload whose leading type byte is not a key of
`api_responses` does not fail: it returns a frame tagged
`unrecognized` carrying the raw type byte and all remaining payload
bytes unchanged. -/
theorem c6_unrecognized_type_passthrough (t : Nat) (rest : List Nat)
    (h : lookupResponse t = none) :
    decode (t :: rest) = .ok ⟨t, "unrecognized", [("raw_data", rest)]⟩ := by
  simp [decode, h]

/-- Witness for C6 at the unregistered type byte 0xFF with three
payload bytes following. -/
theorem c6_unrecognized_type_passthrough_witness :
    decode (0xFF :: [0x01, 0x02, 0x03])
      = .ok ⟨0xFF, "unrecognized", [("raw_data", [0x01, 0x02, 0x03])]⟩ :=
  c6_unrecognized_type_passthrough 0xFF [0x01, 0x02, 0x03] rfl

/-- C9: Decoding an `rx_io` (0x8F) response slices each of its eight
schema fields exactly once at its fixed schema length — 18 payload
bytes after the type byte — and the result is the same fixed slicing
for every value of the `num_samples` byte: the trailing sample fields
are never repeated. -/
theorem c9_rx_io_fixed_slices (b : List Nat) (hb : b.length = 18) :
    decode (0x8F :: b)
      = .ok ⟨0x8F, "rx_io",
          [("source_addr", b.take 8),
           ("RSSI", (b.drop 8).take 1),
           ("options", (b.drop 9).take 1),
           ("num_samples", (b.drop 10).take 1),
           ("digital_mask", (b.drop 11).take 2),
           ("analog_mask", (b.drop 13).take 1),
           ("digital_samples", (b.drop 14).take 2),
           ("analog_sample", (b.drop 16).take 2)]⟩ := by
  simp [decode, lookupResponse, api_responses, splitFields, applyParsing,
    Except.map, List.drop_drop, hb]

/-- Witness for C9 on a concrete 18-byte body whose `num_samples` byte
is 3: the sample fields are still sliced once each. -/
theorem c9_rx_io_fixed_slices_witness :
    decode (0x8F :: [0x00, 0x00, 0x00, 0x00, 0xC0, 0xA8, 0x00, 0x64,
                     0x2A, 0x00, 0x03, 0x00, 0x01, 0x02, 0x10, 0x20,
                     0x30, 0x40])
      = .ok ⟨0x8F, "rx_io",
          [("source_addr", [0x00, 0x00, 0x00, 0x00, 0xC0, 0xA8, 0x00, 0x64]),
           ("RSSI", [0x2A]),
           ("options", [0x00]),
           ("num_samples", [0x03]),
           ("digital_mask", [0x00, 0x01]),
           ("analog_mask", [0x02]),
           ("digital_samples", [0x10, 0x20]),
           ("analog_sample", [0x30, 0x40])]⟩ :=
  c9_rx_io_fixed_slices
    [0x00, 0x00, 0x00, 0x00, 0xC0, 0xA8, 0x00, 0x64,
     0x2A, 0x00, 0x03, 0x00, 0x01, 0x02, 0x10, 0x20, 0x30, 0x40] rfl

namespace XBeeWifi

/-- The encoder's output depends on the supplied values only through
the effective value (supplied-or-default) each schema field resolves
to. -/
theorem encodeFields_congr {fs : List FieldSpec} {v v' : FieldValues}
    (h : ∀ g ∈ fs, effVal g v = effVal g v') :
    encodeFields fs v = encodeFields fs v' := by
  induction fs with
  | nil => rfl
  | cons f fs ih =>
    have hf := h f (List.mem_cons_self f fs)
    have ht : ∀ g ∈ fs, effVal g v = effVal g v' :=
      fun g hg => h g (List.mem_cons_of_mem f hg)
    simp only [encodeFields, hf, ih ht]

/-- Field lookup after prepending one name-value pair. -/
theorem lookupField_cons (n : String) (d : List Nat) (v : FieldValues) (m : String) :
    lookupField ((n, d) :: v) m = if n == m then some d else lookupField v m := by
  cases h : (n == m) <;> simp [lookupField, List.find?, h]

/-- Every command schema of the registry has pairwise-distinct field
names. -/
theorem api_commands_field_names_nodup :
    ∀ p ∈ api_commands, (p.2.map (fun f => f.name)).Nodup := by decide

/-- A successful command lookup pairs the queried name with a schema
stored in the registry. -/
theorem lookupCommand_mem {c : String} {fs : List FieldSpec}
    (hc : lookupCommand c = some fs) : (c, fs) ∈ api_commands := by
  unfold lookupCommand at hc
  cases hfind : api_commands.find? (fun p => p.1 == c) with
  | none => rw [hfind] at hc; exact absurd hc (by simp)
  | some q =>
    obtain ⟨a, b⟩ := q
    rw [hfind] at hc
    have hb : b = fs := by simpa using hc
    have hbeq := List.find?_some hfind
    have ha : a = c := eq_of_beq hbeq
    have hmem := List.mem_of_find?_eq_some hfind
    rw [ha, hb] at hmem
    exact hmem

end XBeeWifi

/-- C7: For every command and every field of that command that has a
default value, encoding with that field omitted produces bytes
identical to encoding with that field explicitly supplied as its
default value. -/
theorem c7_omitted_equals_supplied_default (c : String) (fs : List FieldSpec)
    (f : FieldSpec) (d : List Nat) (v : FieldValues)
    (hc : lookupCommand c = some fs) (hf : f ∈ fs) (hd : f.default = some d)
    (hv : lookupField v f.name = none) :
    encode c v = encode c ((f.name, d) :: v) := by
  have hnd := api_commands_field_names_nodup (c, fs) (lookupCommand_mem hc)
  simp only [encode, hc]
  apply encodeFields_congr
  intro g hg
  simp only [effVal, lookupField_cons]
  cases hgn : (f.name == g.name) with
  | false => simp
  | true =>
    have hg_eq : g = f :=
      List.inj_on_of_nodup_map hnd hg hf ((eq_of_beq hgn).symm)
    subst hg_eq
    simp [hv, hd]

/-- Witness for C7: encoding `at` without `frame_id` equals encoding
`at` with `frame_id` supplied as its default `00`. -/
theorem c7_omitted_equals_supplied_default_witness :
    encode "at" [("command", [0x4E, 0x4A]), ("parameter", [])]
      = encode "at"
          (("frame_id", [0x00]) :: [("command", [0x4E, 0x4A]), ("parameter", [])]) :=
  c7_omitted_equals_supplied_default "at"
    [⟨"id", some 1, some [0x08]⟩, ⟨"frame_id", some 1, some [0x00]⟩,
     ⟨"command", some 2, none⟩, ⟨"parameter", none, none⟩]
    ⟨"frame_id", some 1, some [0x00]⟩ [0x00]
    [("command", [0x4E, 0x4A]), ("parameter", [])]
    rfl (by decide) rfl rfl

namespace XBeeWifi

/-- When every field before `f` passes its checks, `f` has no default
and no supplied value, the serialization loop stops at `f` with
`MissingRequiredField f.name`. -/
theorem encodeFields_missing (pre : List FieldSpec) (f : FieldSpec)
    (post : List FieldSpec) (v : FieldValues)
    (hd : f.default = none) (hv : lookupField v f.name = none)
    (hpre : ∀ g ∈ pre, fieldOk g v) :
    encodeFields (pre ++ f :: post) v = .error (.MissingRequiredField f.name) := by
  induction pre with
  | nil => simp [encodeFields, effVal, hv, hd]
  | cons g gs ih =>
    obtain ⟨x, hx, hlen⟩ := hpre g (List.mem_cons_self g gs)
    have ihh := ih (fun q hq => hpre q (List.mem_cons_of_mem g hq))
    cases hl : g.len with
    | none => simp [encodeFields, hx, hl, ihh, Except.map]
    | some n => simp [encodeFields, hx, hl, hlen n hl, ihh, Except.map]

/-- A successful serialization step requires the head field to resolve
to a value and the tail to serialize successfully. -/
theorem encodeFields_cons_ok {f : FieldSpec} {fs : List FieldSpec}
    {v : FieldValues} {bytes : List Nat}
    (h : encodeFields (f :: fs) v = .ok bytes) :
    (effVal f v).isSome ∧ ∃ b2, encodeFields fs v = .ok b2 := by
  cases he : effVal f v with
  | none =>
    simp only [encodeFields, he] at h
    exact Except.noConfusion h
  | some val =>
    simp only [encodeFields, he] at h
    cases hrec : encodeFields fs v with
    | ok w => exact ⟨by simp [he], w, rfl⟩
    | error e =>
      rw [hrec] at h
      cases hl : f.len with
      | none =>
        rw [hl] at h
        simp only [Except.map] at h
        exact Except.noConfusion h
      | some m =>
        rw [hl] at h
        simp only [Except.map] at h
        split at h
        · exact Except.noConfusion h
        · exact Except.noConfusion h

/-- Serialization succeeds only when every schema field resolves to a
value (supplied or default). -/
theorem encodeFields_ok_effVal {fs : List FieldSpec} {v : FieldValues}
    {bytes : List Nat} (h : encodeFields fs v = .ok bytes) :
    ∀ g ∈ fs, (effVal g v).isSome := by
  induction fs generalizing bytes with
  | nil => intro g hg; cases hg
  | cons f fs ih =>
    intro g hg
    obtain ⟨hf, b2, hb2⟩ := encodeFields_cons_ok h
    rcases List.mem_cons.mp hg with rfl | hg'
    · exact hf
    · exact ih hb2 g hg'

end XBeeWifi

/-- C8: For every command, if the caller omits a field that has no
default value, encode emits no output bytes at all; and when the
fields before it pass their checks (so the serialization loop reaches
it), encode fails with `MissingRequiredField` naming exactly that
field. -/
theorem c8_missing_required_field (c : String) (fs pre post : List FieldSpec)
    (f : FieldSpec) (v : FieldValues)
    (hc : lookupCommand c = some fs) (hsplit : fs = pre ++ f :: post)
    (hd : f.default = none) (hv : lookupField v f.name = none) :
    ((∀ g ∈ pre, fieldOk g v) →
        encode c v = .error (.MissingRequiredField f.name)) ∧
    ∀ bytes : List Nat, encode c v ≠ .ok bytes := by
  constructor
  · intro hpre
    simp only [encode, hc, hsplit]
    exact encodeFields_missing pre f post v hd hv hpre
  · intro bytes hb
    simp only [encode, hc, hsplit] at hb
    have hsome := encodeFields_ok_effVal hb f
      (List.mem_append_right pre (List.mem_cons_self f post))
    simp [effVal, hv, hd] at hsome

/-- Witness for C8: encoding `at` with no values at all fails with
`MissingRequiredField "command"` (its first defaultless field) and
yields no bytes. -/
theorem c8_missing_required_field_witness :
    encode "at" [] = .error (.MissingRequiredField "command") ∧
    ∀ bytes : List Nat, encode "at" [] ≠ .ok bytes :=
  ⟨(c8_missing_required_field "at"
      [⟨"id", some 1, some [0x08]⟩, ⟨"frame_id", some 1, some [0x00]⟩,
       ⟨"command", some 2, none⟩, ⟨"parameter", none, none⟩]
      [⟨"id", some 1, some [0x08]⟩, ⟨"frame_id", some 1, some [0x00]⟩]
      [⟨"parameter", none, none⟩]
      ⟨"command", some 2, none⟩ []
      rfl rfl rfl rfl).1
    (by
      intro g hg
      fin_cases hg
      · exact ⟨[0x08], rfl, fun n hn => by cases hn; rfl⟩
      · exact ⟨[0x00], rfl, fun n hn => by cases hn; rfl⟩),
   (c8_missing_required_field "at"
      [⟨"id", some 1, some [0x08]⟩, ⟨"frame_id", some 1, some [0x00]⟩,
       ⟨"command", some 2, none⟩, ⟨"parameter", none, none⟩]
      [⟨"id", some 1, some [0x08]⟩, ⟨"frame_id", some 1, some [0x00]⟩]
      [⟨"parameter", none, none⟩]
      ⟨"command", some 2, none⟩ []
      rfl rfl rfl rfl).2⟩

namespace XBeeWifi

/-- Registry fact: in every command schema the fields named `id` and
`frame_id` carry a default value. -/
theorem api_commands_id_frame_id_default :
    ∀ p ∈ api_commands, ∀ g ∈ p.2,
      (g.name = "id" ∨ g.name = "frame_id") → g.default.isSome := by decide

/-- The serialization loop never reports a field as missing when every
schema field bearing that name has a default. -/
theorem encodeFields_ne_missing (fs : List FieldSpec) (v : FieldValues)
    (n : String) (h : ∀ g ∈ fs, g.name = n → g.default.isSome) :
    encodeFields fs v ≠ .error (.MissingRequiredField n) := by
  induction fs with
  | nil => simp [encodeFields]
  | cons f fs ih =>
    have hf := h f (List.mem_cons_self f fs)
    have ihh := ih (fun g hg => h g (List.mem_cons_of_mem f hg))
    intro hEq
    cases he : effVal f v with
    | none =>
      have hdef : f.default = none := by
        unfold effVal at he
        cases hl : lookupField v f.name with
        | none => rw [hl] at he; exact he
        | some x => rw [hl] at he; exact Option.noConfusion he
      simp only [encodeFields, he] at hEq
      have hn : f.name = n := by
        injection hEq with h1
        injection h1
      have hsome := hf hn
      rw [hdef] at hsome
      exact Bool.noConfusion hsome
    | some val =>
      simp only [encodeFields, he] at hEq
      cases hrec : encodeFields fs v with
      | error e =>
        cases hl : f.len with
        | none =>
          rw [hl, hrec] at hEq
          simp only [Except.map] at hEq
          rw [← hEq] at ihh
          exact ihh hrec
        | some m =>
          rw [hl] at hEq
          simp only [hrec, Except.map] at hEq
          by_cases hlen : val.length = m
          · rw [if_pos hlen] at hEq
            injection hEq with h1
            rw [h1] at hrec
            exact ihh hrec
          · rw [if_neg hlen] at hEq
            injection hEq with h1
            exact EncodeError.noConfusion h1
      | ok w =>
        cases hl : f.len with
        | none =>
          rw [hl, hrec] at hEq
          simp only [Except.map] at hEq
          exact Except.noConfusion hEq
        | some m =>
          rw [hl] at hEq
          simp only [hrec, Except.map] at hEq
          by_cases hlen : val.length = m
          · rw [if_pos hlen] at hEq
            exact Except.noConfusion hEq
          · rw [if_neg hlen] at hEq
            injection hEq with h1
            exact EncodeError.noConfusion h1

end XBeeWifi

/-- C10: In every command schema the `id` and `frame_id` fields carry a
default value — the `frame_id` default being `01` for `tx` and `00`
for every other command — and consequently `encode` never fails with
`MissingRequiredField` on `id` or `frame_id`, whatever the command name
and supplied values. -/
theorem c10_id_frame_id_always_defaulted :
    (∀ p ∈ api_commands, ∀ g ∈ p.2,
        (g.name = "id" → g.default.isSome) ∧
        (g.name = "frame_id" →
          g.default = some (if p.1 = "tx" then [0x01] else [0x00]))) ∧
    (∀ c : String, ∀ v : FieldValues,
        encode c v ≠ .error (.MissingRequiredField "id") ∧
        encode c v ≠ .error (.MissingRequiredField "frame_id")) := by
  constructor
  · decide
  · intro c v
    constructor <;>
    · simp only [encode]
      cases hc : lookupCommand c with
      | none =>
        intro hEq
        injection hEq with h1
        exact EncodeError.noConfusion h1
      | some fs =>
        exact encodeFields_ne_missing fs v _
          (fun g hg hn =>
            api_commands_id_frame_id_default (c, fs) (lookupCommand_mem hc) g hg
              (by rw [hn]; simp))

/-- Witness for C10: in the `tx` schema the `frame_id` field defaults
to `01`, and encoding `at` with no values does not fail on `id` or
`frame_id`. -/
theorem c10_id_frame_id_always_defaulted_witness :
    (⟨"frame_id", some 1, some [0x01]⟩ : FieldSpec).default
      = some (if ("tx" : String) = "tx" then [0x01] else [0x00]) ∧
    encode "at" [] ≠ .error (.MissingRequiredField "id") ∧
    encode "at" [] ≠ .error (.MissingRequiredField "frame_id") :=
  ⟨(c10_id_frame_id_always_defaulted.1
      ("tx",
        [⟨"id", some 1, some [0x20]⟩, ⟨"frame_id", some 1, some [0x01]⟩,
         ⟨"dest_addr", some 4, none⟩, ⟨"dest_port", some 2, none⟩,
         ⟨"source_port", some 2, none⟩, ⟨"protocol", some 1, some [0x00]⟩,
         ⟨"options", some 1, some [0x00]⟩, ⟨"data", none, none⟩])
      (by decide) ⟨"frame_id", some 1, some [0x01]⟩ (by decide)).2 rfl,
   (c10_id_frame_id_always_defaulted.2 "at" []).1,
   (c10_id_frame_id_always_defaulted.2 "at" []).2⟩

/-- Witness for C4 at the `at` command schema and the `rx` (0x80)
response schema. -/
theorem c4_var_len_field_last_witness :
    (([(⟨"id", some 1, some [0x08]⟩ : XBeeWifi.FieldSpec),
       ⟨"frame_id", some 1, some [0x00]⟩, ⟨"command", some 2, none⟩,
       ⟨"parameter", none, none⟩].filter (fun f => f.len = none)).length ≤ 1 ∧
     varLenLastOnly
       [⟨"id", some 1, some [0x08]⟩, ⟨"frame_id", some 1, some [0x00]⟩,
        ⟨"command", some 2, none⟩, ⟨"parameter", none, none⟩] = true) ∧
    (([(⟨"frame_id", some 1, none⟩ : XBeeWifi.FieldSpec),
       ⟨"source_addr", some 8, none⟩, ⟨"RSSI", some 2, none⟩,
       ⟨"options", some 1, none⟩,
       ⟨"rf_data", none, none⟩].filter (fun f => f.len = none)).length ≤ 1 ∧
     varLenLastOnly
       [⟨"frame_id", some 1, none⟩, ⟨"source_addr", some 8, none⟩,
        ⟨"RSSI", some 2, none⟩, ⟨"options", some 1, none⟩,
        ⟨"rf_data", none, none⟩] = true) :=
  ⟨c4_var_len_field_last.1
     ("at",
       [⟨"id", some 1, some [0x08]⟩, ⟨"frame_id", some 1, some [0x00]⟩,
        ⟨"command", some 2, none⟩, ⟨"parameter", none, none⟩])
     (by decide),
   c4_var_len_field_last.2
     (0x80, ⟨"rx",
       [⟨"frame_id", some 1, none⟩, ⟨"source_addr", some 8, none⟩,
        ⟨"RSSI", some 2, none⟩, ⟨"options", some 1, none⟩,
        ⟨"rf_data", none, none⟩], []⟩)
     (List.mem_cons_self _ _)⟩

/-- Witness for C5 at the `at` command schema: its first field is the
1-byte `id` field with a default. -/
theorem c5_frame_type_id_unique_witness :
    ∃ f rest,
      ([(⟨"id", some 1, some [0x08]⟩ : XBeeWifi.FieldSpec),
        ⟨"frame_id", some 1, some [0x00]⟩, ⟨"command", some 2, none⟩,
        ⟨"parameter", none, none⟩] : List XBeeWifi.FieldSpec) = f :: rest ∧
      f.name = "id" ∧ f.len = some 1 ∧ f.default.isSome :=
  c5_frame_type_id_unique.1
    ("at",
      [⟨"id", some 1, some [0x08]⟩, ⟨"frame_id", some 1, some [0x00]⟩,
       ⟨"command", some 2, none⟩, ⟨"parameter", none, none⟩])
    (by decide)
